import Mathlib

/-
  A shallow embedding of the health-tracking backend (main.py together
  with the record schemas of schemas.py): the nearby-hospital geospatial
  filter, the reminder generators and the dashboard aggregator, with
  proofs of the specified properties.

  Conventions of the embedding:
  * Python floats are modelled as real numbers (exact real arithmetic).
  * datetimes are modelled as an integer number of hours on a global
    timeline; `now` (datetime.utcnow() in the source) is an arbitrary
    integer parameter, and timedelta(days=d, hours=h) adds 24*d + h.
  * stored MongoDB documents are modelled as association lists from
    string keys to a small value type; Python's dict.get is `dget`.
    The store adapter itself (database.py is not part of the sources;
    the spec treats it as an external collaborator that returns the
    stored records in insertion order) is abstracted away by passing
    the fetched record lists directly to each operation.
  * code that can raise returns Except (hydration_reminders can raise
    a ValueError out of range() when the step is zero).
  * Python's list.sort is a stable ascending sort by the given key;
    it is embedded as List.insertionSort, which is exactly the stable
    ascending sort by the comparison it is handed.
-/

open scoped Classical

namespace HealthBackend

/-! ## Stored documents -/

/-- Values that occur in the stored documents relevant to the dashboard:
null, strings, integers, rationals (Python floats) and lists of strings. -/
inductive Value where
  | vnull : Value
  | vstr : String → Value
  | vint : ℤ → Value
  | vrat : ℚ → Value
  | vlist : List String → Value
deriving DecidableEq

/-- A stored document: an association list of field names to values. -/
abbrev Doc : Type := List (String × Value)

/-- Python's dict.get with a default: the value of the first binding of
the key, or the default when the key is absent (a stored null is still
a present key and is returned as vnull). -/
def dget (doc : Doc) (key : String) (dflt : Value) : Value :=
  match doc.find? (fun kv => kv.1 == key) with
  | some kv => kv.2
  | none => dflt

/-! ## Record schemas (schemas.py) -/

/-- Hospital schema: name, address, city, optional coordinates, optional
phone. -/
structure Hospital where
  name : String
  address : String
  city : String
  location_lat : Option ℝ
  location_lng : Option ℝ
  phone : Option String

/-- PatientMedicalInfo schema: the patient-level medical information.
This is the only schema that defines the chronic_disease and
current_medication fields (relevant to claim C10). -/
structure PatientMedicalInfo where
  blood_group : Option String
  allergies : Option (List String)
  current_medication : Option (List String)
  past_medication : Option (List String)
  chronic_disease : Option (List String)
  assigned_doctor : Option String

/-- HealthMetric schema: patient_id, timestamp and the optional clinical
readings. There is no chronic_disease and no current_medication field. -/
structure HealthMetric where
  patient_id : String
  timestamp : ℤ
  blood_pressure_systolic : Option ℤ
  blood_pressure_diastolic : Option ℤ
  blood_oxygen_level : Option ℚ
  wbc_count : Option ℚ
  platelet_count : Option ℚ
  sugar_level : Option ℚ
  vitamin_deficiencies : Option (List String)

/-- Conversion of an optional integer field to a stored value. -/
def optIntV : Option ℤ → Value
  | none => .vnull
  | some n => .vint n

/-- Conversion of an optional rational field to a stored value. -/
def optRatV : Option ℚ → Value
  | none => .vnull
  | some q => .vrat q

/-- Conversion of an optional string-list field to a stored value. -/
def optListV : Option (List String) → Value
  | none => .vnull
  | some xs => .vlist xs

/-- The stored document of a HealthMetric record: exactly the fields of
the HealthMetric schema (pydantic serialises every schema field, with
null for absent optional values). -/
def HealthMetric.toDoc (m : HealthMetric) : Doc :=
  [("patient_id", .vstr m.patient_id),
   ("timestamp", .vint m.timestamp),
   ("blood_pressure_systolic", optIntV m.blood_pressure_systolic),
   ("blood_pressure_diastolic", optIntV m.blood_pressure_diastolic),
   ("blood_oxygen_level", optRatV m.blood_oxygen_level),
   ("wbc_count", optRatV m.wbc_count),
   ("platelet_count", optRatV m.platelet_count),
   ("sugar_level", optRatV m.sugar_level),
   ("vitamin_deficiencies", optListV m.vitamin_deficiencies)]

/-- Reminder type enumeration of the Reminder schema. -/
inductive ReminderType where
  | Appointment : ReminderType
  | Medication : ReminderType
  | Diet : ReminderType
  | Hydration : ReminderType
  | Call : ReminderType
deriving DecidableEq

/-- Reminder schema: patient_id, reminder_type, message, due_at and the
optional dosage and appointment_id. -/
structure Reminder where
  patient_id : String
  reminder_type : ReminderType
  message : String
  due_at : ℤ
  dosage : Option String
  appointment_id : Option String
deriving DecidableEq

/-! ## Python range -/

/-- Length of the sequence range(start, stop, step) for a nonzero step
(CPython computes (hi - lo - 1) // |step| + 1 clamped at zero; integer
division on ℤ here is floor division for the positive divisor |step|,
as in Python). -/
def pyRangeLen (start stop step : ℤ) : ℕ :=
  if 0 < step then ((stop - start + step - 1) / step).toNat
  else ((start - stop - step - 1) / (-step)).toNat

/-- Python's range(start, stop, step) as a list of integers; none models
the ValueError that range raises when step = 0. -/
def pyRange (start stop step : ℤ) : Option (List ℤ) :=
  if step = 0 then none
  else some ((List.range (pyRangeLen start stop step)).map (fun k : ℕ => start + step * (k : ℤ)))

/-! ## Reminder generators (main.py, "Simple AI Nurse Logic") -/

/-- The reminder record built in each iteration of
generate_medication_reminders. -/
def medicationReminder (patient_id : String) (due : ℤ) : Reminder :=
  ⟨patient_id, .Medication, "Time to take your medication", due, none, none⟩

/-- generate_medication_reminders: for day in range(days), for t in
range(times_per_day), a reminder due at now + timedelta(days=day,
hours=9 + t*8); every reminder is persisted and collected, and the
endpoint returns the count. This is the list of reminders created, in
creation order. -/
def generate_medication_reminders (patient_id : String) (times_per_day days now : ℤ) :
    List Reminder :=
  (List.range days.toNat).flatMap (fun day : ℕ =>
    (List.range times_per_day.toNat).map (fun t : ℕ =>
      medicationReminder patient_id (now + 24 * (day : ℤ) + (9 + (t : ℤ) * 8))))

/-- The response body of the medication-reminders endpoint. -/
structure CreatedResponse where
  created : ℕ
deriving DecidableEq

/-- The value returned by the medication-reminders endpoint:
len(reminders) for the list of reminders appended in the loop. -/
def medication_reminders_response (patient_id : String) (times_per_day days now : ℤ) :
    CreatedResponse :=
  ⟨(generate_medication_reminders patient_id times_per_day days now).length⟩

/-- The reminder record built in each iteration of hydration_reminders. -/
def hydrationReminder (patient_id : String) (due : ℤ) : Reminder :=
  ⟨patient_id, .Hydration, "Drink water", due, none, none⟩

/-- hydration_reminders: for h in range(0, hours, interval_hours), a
reminder due at now + timedelta(hours=h). When interval_hours = 0 the
call to range raises a ValueError, modelled as the error branch; for
any other interval_hours the endpoint returns normally with the list
of reminders created (the endpoint reports len of that list). -/
def hydration_reminders (patient_id : String) (interval_hours hours now : ℤ) :
    Except String (List Reminder) :=
  match pyRange 0 hours interval_hours with
  | none => .error "range() arg 3 must not be zero"
  | some offsets => .ok (offsets.map (fun h => hydrationReminder patient_id (now + h)))

/-! ## Dashboard aggregator (main.py, dashboard_summary) -/

/-- The nested health block of the dashboard summary. -/
structure DashboardHealth where
  bp : Value × Value
  oxygen : Value
  wbc : Value
  platelet : Value
  sugar : Value
deriving DecidableEq

/-- The dashboard summary response. -/
structure DashboardSummary where
  disease : Value
  medications : Value
  reports_count : ℕ
  calendar : List Value
  health : DashboardHealth
  vitamin_deficiencies : Value
deriving DecidableEq

/-- dashboard_summary: metrics and reports are the record lists fetched
from the store for the patient (in insertion order); latest is
metrics[-1] if metrics else the empty dict, and every field is read
from latest with dict.get exactly as in the source. -/
def dashboard_summary (metrics reports : List Doc) : DashboardSummary :=
  let latest : Doc := metrics.getLast?.getD []
  ⟨dget latest "chronic_disease" (.vlist []),
   dget latest "current_medication" (.vlist []),
   reports.length,
   [],
   ⟨(dget latest "blood_pressure_systolic" .vnull,
     dget latest "blood_pressure_diastolic" .vnull),
    dget latest "blood_oxygen_level" .vnull,
    dget latest "wbc_count" .vnull,
    dget latest "platelet_count" .vnull,
    dget latest "sugar_level" .vnull⟩,
   dget latest "vitamin_deficiencies" (.vlist [])⟩

/-- A concrete HealthMetric record used by the witnesses. -/
def testMetric : HealthMetric :=
  ⟨"p1", 0, some 120, some 80, none, none, none, none, some []⟩

/-! ## Geospatial proximity filter (main.py, nearby_hospitals) -/

noncomputable section

/-- Python's math.radians. -/
def radians (x : ℝ) : ℝ := x * Real.pi / 180

/-- Python's math.atan2 y x: the argument of the complex number x + y*i
(math.atan2 agrees with the principal argument in (-π, π], with
atan2 0 0 = 0). -/
def atan2 (y x : ℝ) : ℝ := Complex.arg ⟨x, y⟩

/-- The intermediate quantity a of the haversine helper in
nearby_hospitals. -/
def hav_a (lat1 lon1 lat2 lon2 : ℝ) : ℝ :=
  Real.sin (radians (lat2 - lat1) / 2) ^ 2 +
    Real.cos (radians lat1) * Real.cos (radians lat2) *
      Real.sin (radians (lon2 - lon1) / 2) ^ 2

/-- The haversine helper of nearby_hospitals: great-circle distance with
Earth radius 6371.0 km. -/
def haversine (lat1 lon1 lat2 lon2 : ℝ) : ℝ :=
  let R : ℝ := 6371.0
  let a := hav_a lat1 lon1 lat2 lon2
  let c := 2 * atan2 (Real.sqrt a) (Real.sqrt (1 - a))
  R * c

/-- Rounding of a real to an integer with ties to even, the tie rule of
Python's round. -/
def roundHalfEven (x : ℝ) : ℤ :=
  if Int.fract x = 1 / 2 then (if Even ⌊x⌋ then ⌊x⌋ else ⌊x⌋ + 1) else round x

/-- Python's round(x, 2): round to 2 decimal places. -/
def round2 (x : ℝ) : ℝ := (roundHalfEven (100 * x) : ℝ) / 100

/-- A hospital result of the proximity search: every field of the stored
hospital record, unchanged, plus the computed distance_km field that is
added to the copy of the record at query time. -/
structure HospitalWithDistance where
  hospital : Hospital
  distance_km : ℝ

/-- The comparison used by results.sort(key=lambda x: x["distance_km"]). -/
def distLE (a b : HospitalWithDistance) : Prop := a.distance_km ≤ b.distance_km

instance : IsTotal HospitalWithDistance distLE := ⟨fun a b => le_total a.distance_km b.distance_km⟩

instance : IsTrans HospitalWithDistance distLE := ⟨fun _ _ _ => le_trans⟩

instance : DecidableRel distLE := fun _ _ => Classical.propDecidable _

/-- The body of the for loop of nearby_hospitals for one candidate:
skip the hospital when either coordinate is missing; otherwise compute
the haversine distance from the query point and keep the hospital,
augmented with the rounded distance, exactly when dist <= radius_km. -/
def candidateFor (lat lng radius_km : ℝ) (h : Hospital) : Option HospitalWithDistance :=
  match h.location_lat, h.location_lng with
  | some hlat, some hlng =>
      let dist := haversine lat lng hlat hlng
      if dist ≤ radius_km then some ⟨h, round2 dist⟩ else none
  | _, _ => none

/-- The results list of nearby_hospitals before the final sort, in the
order of the stored hospital list. -/
def nearbyCandidates (hospitals : List Hospital) (lat lng radius_km : ℝ) :
    List HospitalWithDistance :=
  hospitals.filterMap (candidateFor lat lng radius_km)

/-- nearby_hospitals: filter the fetched hospitals by haversine distance
and sort the results ascending by the distance_km key (Python's
list.sort is stable; List.insertionSort is that stable sort). -/
def nearby_hospitals (hospitals : List Hospital) (lat lng radius_km : ℝ) :
    List HospitalWithDistance :=
  List.insertionSort distLE (nearbyCandidates hospitals lat lng radius_km)

/-- Boolean test that a result has a given distance_km value (used to
state sort stability). -/
def sameDist (d : ℝ) : HospitalWithDistance → Bool :=
  fun hw => decide (hw.distance_km = d)

/-- A concrete hospital record at latitude 10, longitude 10, used by the
witnesses. -/
def testHospital : Hospital :=
  ⟨"General Hospital", "1 Main St", "Springfield", some 10, some 10, none⟩

end

/-! ## Dashboard theorems -/

/-- Lookup of chronic_disease in a stored HealthMetric document always
falls back to the default: the HealthMetric schema defines no such key. -/
theorem dget_toDoc_chronic_disease (m : HealthMetric) (dflt : Value) :
    dget m.toDoc "chronic_disease" dflt = dflt := rfl

/-- Lookup of current_medication in a stored HealthMetric document always
falls back to the default: the HealthMetric schema defines no such key. -/
theorem dget_toDoc_current_medication (m : HealthMetric) (dflt : Value) :
    dget m.toDoc "current_medication" dflt = dflt := rfl

/-- Claim C6: for a patient whose fetched health-metric list is empty the
dashboard summary is returned (the embedding is a total function, so no
error and no 404 is possible), the health block is all nulls, the
disease, medication, vitamin-deficiency and calendar lists are empty,
and reports_count is the number of fetched report records. -/
theorem claim_C6 (reports : List Doc) :
    dashboard_summary [] reports =
      ⟨.vlist [], .vlist [], reports.length, [],
       ⟨(.vnull, .vnull), .vnull, .vnull, .vnull, .vnull⟩, .vlist []⟩ := rfl

/-- Claim C10: whenever every fetched metric document is the stored image
of a HealthMetric schema record, the dashboard's disease and medications
fields are the empty list, because the aggregator reads the
chronic_disease and current_medication keys, which the HealthMetric
schema does not define (they exist only on PatientMedicalInfo). -/
theorem claim_C10 (metrics reports : List Doc)
    (hm : ∀ d ∈ metrics, ∃ m : HealthMetric, d = m.toDoc) :
    (dashboard_summary metrics reports).disease = .vlist [] ∧
    (dashboard_summary metrics reports).medications = .vlist [] := by
  have hd : (dashboard_summary metrics reports).disease =
      dget (metrics.getLast?.getD []) "chronic_disease" (.vlist []) := rfl
  have hmed : (dashboard_summary metrics reports).medications =
      dget (metrics.getLast?.getD []) "current_medication" (.vlist []) := rfl
  rcases hlast : metrics.getLast? with _ | last
  · rw [hd, hmed, hlast]
    exact ⟨rfl, rfl⟩
  · obtain ⟨m, rfl⟩ := hm last (List.mem_of_mem_getLast? (Option.mem_def.mpr hlast))
    rw [hd, hmed, hlast]
    exact ⟨dget_toDoc_chronic_disease m _, dget_toDoc_current_medication m _⟩

/-- Witness for claim C10 at a concrete metric record. -/
theorem claim_C10_witness :
    (dashboard_summary [testMetric.toDoc] []).disease = .vlist [] ∧
    (dashboard_summary [testMetric.toDoc] []).medications = .vlist [] :=
  claim_C10 [testMetric.toDoc] []
    (fun _ hd => ⟨testMetric, List.mem_singleton.mp hd⟩)

/-! ## Reminder generator theorems -/

/-- Claim C3, behavior of the code at the inputs the claim covers: with
interval_hours = -1 and hours = 12 the generator silently returns a
normal, empty result (range(0, 12, -1) is empty) instead of failing
with a validation error; with interval_hours = -1 and hours = -5 it even
returns five backdated reminders; only interval_hours = 0 raises, and
what it raises is range's ValueError, not a validation error. -/
theorem claim_C3_code_behavior :
    hydration_reminders "p1" (-1) 12 0 = Except.ok [] ∧
    Except.map List.length (hydration_reminders "p1" (-1) (-5) 0) = Except.ok 5 ∧
    hydration_reminders "p1" 0 12 0 = Except.error "range() arg 3 must not be zero" :=
  ⟨rfl, rfl, rfl⟩

/-- Counting lemma for pyRange with a positive step: index k is inside
the range exactly when step * k is below the bound. -/
theorem lt_pyRangeLen_iff {stop step : ℤ} (hstep : 0 < step) (k : ℕ) :
    k < pyRangeLen 0 stop step ↔ step * (k : ℤ) < stop := by
  unfold pyRangeLen
  rw [if_pos hstep, Int.lt_toNat]
  constructor
  · intro h
    have h2 : (k : ℤ) + 1 ≤ (stop - 0 + step - 1) / step := Int.add_one_le_iff.mpr h
    have h3 := (Int.le_ediv_iff_mul_le hstep).mp h2
    nlinarith
  · intro h
    have h2 : ((k : ℤ) + 1) * step ≤ stop - 0 + step - 1 := by nlinarith
    have h3 := (Int.le_ediv_iff_mul_le hstep).mpr h2
    linarith [Int.add_one_le_iff.mp h3]

/-- Claim C5: for a positive interval the hydration generator returns
normally with one reminder per offset stepping from 0 by interval_hours
below hours: the i-th reminder is due at now + interval_hours * i, every
produced offset is below hours, and every multiple of interval_hours
below hours is produced. -/
theorem claim_C5 (patient_id : String) (interval_hours hours now : ℤ)
    (hint : 0 < interval_hours) (hhours : 0 ≤ hours) :
    ∃ rs : List Reminder,
      hydration_reminders patient_id interval_hours hours now = Except.ok rs ∧
      (∀ i : ℕ, i < rs.length →
        rs[i]? = some (hydrationReminder patient_id (now + interval_hours * (i : ℤ))) ∧
        interval_hours * (i : ℤ) < hours) ∧
      (∀ k : ℕ, interval_hours * (k : ℤ) < hours → k < rs.length) := by
  have hne : interval_hours ≠ 0 := ne_of_gt hint
  refine ⟨((List.range (pyRangeLen 0 hours interval_hours)).map
      (fun k : ℕ => (0 : ℤ) + interval_hours * (k : ℤ))).map
      (fun h => hydrationReminder patient_id (now + h)), ?_, ?_, ?_⟩
  · unfold hydration_reminders pyRange
    rw [if_neg hne]
  · intro i hi
    rw [List.length_map, List.length_map, List.length_range] at hi
    constructor
    · rw [List.getElem?_map, List.getElem?_map, List.getElem?_range hi]
      simp
    · exact (lt_pyRangeLen_iff hint i).mp hi
  · intro k hk
    rw [List.length_map, List.length_map, List.length_range]
    exact (lt_pyRangeLen_iff hint k).mpr hk

/-- Witness for claim C5 at interval_hours = 3, hours = 12: four
reminders, at offsets 0, 3, 6 and 9 hours. -/
theorem claim_C5_witness :
    ∃ rs : List Reminder,
      hydration_reminders "p1" 3 12 0 = Except.ok rs ∧
      (∀ i : ℕ, i < rs.length →
        rs[i]? = some (hydrationReminder "p1" ((0 : ℤ) + 3 * (i : ℤ))) ∧
        (3 : ℤ) * (i : ℤ) < 12) ∧
      (∀ k : ℕ, (3 : ℤ) * (k : ℤ) < 12 → k < rs.length) :=
  claim_C5 "p1" 3 12 0 (by norm_num) (by norm_num)

/-- Length of a flatMap over List.range when every block has the same
length. -/
theorem length_flatMap_range_const {β : Type} (g : ℕ → List β) (T : ℕ)
    (hg : ∀ d, (g d).length = T) :
    ∀ D : ℕ, ((List.range D).flatMap g).length = D * T
  | 0 => by simp
  | D + 1 => by
    rw [List.range_succ, List.flatMap_append, List.length_append,
      length_flatMap_range_const g T hg D]
    simp [hg, Nat.succ_mul]

/-- Element access into a flatMap over List.range with constant block
length: position d * T + t holds element t of block d. -/
theorem getElem?_flatMap_range_const {β : Type} (g : ℕ → List β) (T : ℕ)
    (hg : ∀ d, (g d).length = T) :
    ∀ D d t : ℕ, d < D → t < T →
      ((List.range D).flatMap g)[d * T + t]? = (g d)[t]?
  | 0, d, _, hd, _ => absurd hd (Nat.not_lt_zero d)
  | D + 1, d, t, hd, ht => by
    rw [List.range_succ, List.flatMap_append]
    by_cases hdD : d < D
    · have hlt : d * T + t < ((List.range D).flatMap g).length := by
        rw [length_flatMap_range_const g T hg D]
        have h2 : (d + 1) * T ≤ D * T := Nat.mul_le_mul_right T hdD
        have h1 : d * T + t < (d + 1) * T := by
          rw [Nat.succ_mul]
          omega
        omega
      rw [List.getElem?_append, if_pos hlt]
      exact getElem?_flatMap_range_const g T hg D d t hdD ht
    · have hdD2 : d = D := by omega
      subst hdD2
      have hlen : ((List.range d).flatMap g).length = d * T :=
        length_flatMap_range_const g T hg d
      rw [List.getElem?_append_right (by rw [hlen]; omega)]
      rw [hlen]
      have ht2 : d * T + t - d * T = t := by omega
      rw [ht2]
      simp

/-- Claim C4: for non-negative days and times_per_day the medication
generator creates exactly days * times_per_day reminders, the returned
count is the number created, and the reminder at position
d * times_per_day + t is due at now + 24 * d + (9 + t * 8) hours, for
every day index d below days and dose index t below times_per_day. -/
theorem claim_C4 (patient_id : String) (times_per_day days now : ℤ)
    (htimes : 0 ≤ times_per_day) (hdays : 0 ≤ days) :
    ((generate_medication_reminders patient_id times_per_day days now).length : ℤ) =
        days * times_per_day ∧
    (medication_reminders_response patient_id times_per_day days now).created =
        (generate_medication_reminders patient_id times_per_day days now).length ∧
    (∀ d t : ℕ, d < days.toNat → t < times_per_day.toNat →
      (generate_medication_reminders patient_id times_per_day days
          now)[d * times_per_day.toNat + t]? =
        some (medicationReminder patient_id (now + 24 * (d : ℤ) + (9 + (t : ℤ) * 8)))) := by
  refine ⟨?_, rfl, ?_⟩
  · unfold generate_medication_reminders
    rw [length_flatMap_range_const _ times_per_day.toNat (fun d => by simp) days.toNat]
    push_cast [Int.toNat_of_nonneg hdays, Int.toNat_of_nonneg htimes]
    ring
  · intro d t hd ht
    unfold generate_medication_reminders
    rw [getElem?_flatMap_range_const _ times_per_day.toNat (fun d => by simp)
        days.toNat d t hd ht]
    rw [List.getElem?_map, List.getElem?_range ht]
    rfl

/-- Witness for claim C4 at times_per_day = 2, days = 7: exactly 14
reminders, and the reminder at position 2 (day 1, first dose) is due 33
hours after now, that is at now + 1 day + 9 hours. -/
theorem claim_C4_witness :
    (generate_medication_reminders "p1" 2 7 0).length = 14 ∧
    (generate_medication_reminders "p1" 2 7 0)[2]? =
      some (medicationReminder "p1" 33) := by
  have h := claim_C4 "p1" 2 7 0 (by norm_num) (by norm_num)
  refine ⟨by exact_mod_cast h.1, ?_⟩
  have h3 := h.2.2 1 0 (by norm_num) (by norm_num)
  norm_num at h3
  exact h3

/-! ## Geospatial theorems -/

/-- Unfolding equation of haversine. -/
theorem haversine_def (lat1 lon1 lat2 lon2 : ℝ) :
    haversine lat1 lon1 lat2 lon2 =
      6371.0 * (2 * atan2 (Real.sqrt (hav_a lat1 lon1 lat2 lon2))
        (Real.sqrt (1 - hav_a lat1 lon1 lat2 lon2))) := rfl

/-- atan2 of a non-negative ordinate is non-negative. -/
theorem atan2_nonneg {y : ℝ} (x : ℝ) (hy : 0 ≤ y) : 0 ≤ atan2 y x :=
  Complex.arg_nonneg_iff.mpr hy

/-- Haversine distance is non-negative, for every real input (in exact
real arithmetic the square roots are taken of non-negative reals, and
the resulting angle lies in the upper closed half plane). -/
theorem haversine_nonneg (lat1 lon1 lat2 lon2 : ℝ) :
    0 ≤ haversine lat1 lon1 lat2 lon2 := by
  rw [haversine_def]
  have h := atan2_nonneg (y := Real.sqrt (hav_a lat1 lon1 lat2 lon2))
    (Real.sqrt (1 - hav_a lat1 lon1 lat2 lon2))
    (Real.sqrt_nonneg (hav_a lat1 lon1 lat2 lon2))
  have h2 : (0 : ℝ) ≤ 2 * atan2 (Real.sqrt (hav_a lat1 lon1 lat2 lon2))
      (Real.sqrt (1 - hav_a lat1 lon1 lat2 lon2)) := by linarith
  exact mul_nonneg (by norm_num) h2

/-- atan2 0 1 is zero. -/
theorem atan2_zero_one : atan2 0 1 = 0 := by
  unfold atan2
  have h : (⟨1, 0⟩ : ℂ) = 1 := rfl
  rw [h, Complex.arg_one]

/-- The intermediate haversine quantity vanishes at coincident points. -/
theorem hav_a_self (lat lon : ℝ) : hav_a lat lon lat lon = 0 := by
  unfold hav_a radians
  simp

/-- Haversine distance of a point from itself is exactly zero. -/
theorem haversine_self (lat lon : ℝ) : haversine lat lon lat lon = 0 := by
  rw [haversine_def, hav_a_self, Real.sqrt_zero, sub_zero, Real.sqrt_one,
    atan2_zero_one]
  ring

/-- Rounding zero to an integer gives zero. -/
theorem roundHalfEven_zero : roundHalfEven 0 = 0 := by
  unfold roundHalfEven
  have h : ¬(Int.fract (0 : ℝ) = 1 / 2) := by
    rw [Int.fract_zero]
    norm_num
  rw [if_neg h, round_zero]

/-- Rounding zero to two decimals gives zero. -/
theorem round2_zero : round2 0 = 0 := by
  unfold round2
  rw [mul_zero, roundHalfEven_zero]
  norm_num

/-- Characterization of the loop body of nearby_hospitals: a candidate is
kept exactly when both coordinates are present and its distance is
within the radius, and the kept record is the unchanged hospital paired
with the rounded distance. -/
theorem candidateFor_eq_some_iff (lat lng radius_km : ℝ) (h : Hospital)
    (rec : HospitalWithDistance) :
    candidateFor lat lng radius_km h = some rec ↔
      ∃ hlat hlng, h.location_lat = some hlat ∧ h.location_lng = some hlng ∧
        haversine lat lng hlat hlng ≤ radius_km ∧
        rec = ⟨h, round2 (haversine lat lng hlat hlng)⟩ := by
  unfold candidateFor
  rcases hla : h.location_lat with _ | a <;> rcases hlb : h.location_lng with _ | b
  · simp [hla, hlb]
  · simp [hla, hlb]
  · simp [hla, hlb]
  · simp only [hla, hlb]
    split_ifs with hd
    · simp [hd, eq_comm]
    · simp [hd]

/-- Membership in the nearby-hospitals result: exactly the stored
hospitals with both coordinates present and haversine distance within
the radius (inclusive), each augmented with the rounded distance; a
hospital missing either coordinate contributes nothing. -/
theorem mem_nearby_hospitals_iff (hospitals : List Hospital) (lat lng radius_km : ℝ)
    (rec : HospitalWithDistance) :
    rec ∈ nearby_hospitals hospitals lat lng radius_km ↔
      ∃ h ∈ hospitals, ∃ hlat hlng,
        h.location_lat = some hlat ∧ h.location_lng = some hlng ∧
        haversine lat lng hlat hlng ≤ radius_km ∧
        rec = ⟨h, round2 (haversine lat lng hlat hlng)⟩ := by
  unfold nearby_hospitals nearbyCandidates
  rw [List.mem_insertionSort, List.mem_filterMap]
  constructor
  · rintro ⟨h, hmem, hc⟩
    exact ⟨h, hmem, (candidateFor_eq_some_iff lat lng radius_km h rec).mp hc⟩
  · rintro ⟨h, hmem, hrest⟩
    exact ⟨h, hmem, (candidateFor_eq_some_iff lat lng radius_km h rec).mpr hrest⟩

/-- Claim C1: the nearby-hospitals operation returns exactly the
candidates that have both location_lat and location_lng populated and
whose haversine distance (Earth radius 6371.0 km) from the query point
is at most radius_km; every candidate missing either coordinate is
excluded (the operation is a total function, so no error is raised). -/
theorem claim_C1 (hospitals : List Hospital) (lat lng radius_km : ℝ)
    (rec : HospitalWithDistance) :
    rec ∈ nearby_hospitals hospitals lat lng radius_km ↔
      ∃ h ∈ hospitals, ∃ hlat hlng,
        h.location_lat = some hlat ∧ h.location_lng = some hlng ∧
        haversine lat lng hlat hlng ≤ radius_km ∧
        rec = ⟨h, round2 (haversine lat lng hlat hlng)⟩ :=
  mem_nearby_hospitals_iff hospitals lat lng radius_km rec

/-- Filtering for one distance value commutes with orderedInsert when the
inserted element carries that distance: the element lands in front of
the equal-distance elements already present. -/
theorem filter_orderedInsert_same (d : ℝ) (x : HospitalWithDistance)
    (hx : x.distance_km = d) :
    ∀ l : List HospitalWithDistance,
      (List.orderedInsert distLE x l).filter (sameDist d) =
        x :: l.filter (sameDist d)
  | [] => by simp [sameDist, hx]
  | y :: ys => by
    simp only [List.orderedInsert]
    split_ifs with hxy
    · have hpx : sameDist d x = true := by simp [sameDist, hx]
      simp [List.filter_cons, hpx]
    · have hyne : sameDist d y = false := by
        have hne : y.distance_km ≠ d := by
          intro hyd
          exact hxy (le_of_eq (by rw [hx, hyd]))
        simp [sameDist, hne]
      simp [List.filter_cons, hyne, filter_orderedInsert_same d x hx ys]

/-- Filtering for one distance value ignores an orderedInsert of an
element with a different distance. -/
theorem filter_orderedInsert_diff (d : ℝ) (x : HospitalWithDistance)
    (hx : x.distance_km ≠ d) :
    ∀ l : List HospitalWithDistance,
      (List.orderedInsert distLE x l).filter (sameDist d) = l.filter (sameDist d)
  | [] => by simp [sameDist, hx]
  | y :: ys => by
    simp only [List.orderedInsert]
    have hpx : sameDist d x = false := by simp [sameDist, hx]
    split_ifs with hxy
    · simp [List.filter_cons, hpx]
    · simp [List.filter_cons, hpx, filter_orderedInsert_diff d x hx ys]

/-- Stability of the embedded sort: sorting does not change the relative
order of the results sharing one distance_km value. -/
theorem filter_insertionSort_sameDist (d : ℝ) :
    ∀ l : List HospitalWithDistance,
      (List.insertionSort distLE l).filter (sameDist d) = l.filter (sameDist d)
  | [] => rfl
  | x :: xs => by
    simp only [List.insertionSort]
    by_cases hx : x.distance_km = d
    · rw [filter_orderedInsert_same d x hx (List.insertionSort distLE xs),
        filter_insertionSort_sameDist d xs, List.filter_cons]
      have hpx : sameDist d x = true := by simp [sameDist, hx]
      rw [hpx]
      simp
    · rw [filter_orderedInsert_diff d x hx (List.insertionSort distLE xs),
        filter_insertionSort_sameDist d xs, List.filter_cons]
      have hpx : sameDist d x = false := by simp [sameDist, hx]
      rw [hpx]
      simp

/-- The pre-sort results list visits the stored hospitals in input order:
its hospitals form a sublist of the input list. -/
theorem nearbyCandidates_map_sublist (lat lng radius_km : ℝ) :
    ∀ hospitals : List Hospital,
      ((nearbyCandidates hospitals lat lng radius_km).map
        HospitalWithDistance.hospital).Sublist hospitals
  | [] => by simp [nearbyCandidates]
  | h :: hs => by
    have ih := nearbyCandidates_map_sublist lat lng radius_km hs
    unfold nearbyCandidates at ih ⊢
    rw [List.filterMap_cons]
    rcases hc : candidateFor lat lng radius_km h with _ | rec
    · exact List.Sublist.cons h ih
    · obtain ⟨hlat, hlng, _, _, _, hrec⟩ :=
        (candidateFor_eq_some_iff lat lng radius_km h rec).mp hc
      have hh : rec.hospital = h := by rw [hrec]
      rw [List.map_cons, hh]
      exact List.Sublist.cons₂ h ih

/-- Claim C2: the nearby-hospitals result is ascending in the distance_km
key; for every distance value the equal-distance results appear exactly
in their pre-sort order (stable sort), and the pre-sort results list
lists the qualifying hospitals in the order of the input candidate
list. -/
theorem claim_C2 (hospitals : List Hospital) (lat lng radius_km : ℝ) :
    List.Sorted distLE (nearby_hospitals hospitals lat lng radius_km) ∧
    (∀ d : ℝ, (nearby_hospitals hospitals lat lng radius_km).filter (sameDist d) =
      (nearbyCandidates hospitals lat lng radius_km).filter (sameDist d)) ∧
    ((nearbyCandidates hospitals lat lng radius_km).map
      HospitalWithDistance.hospital).Sublist hospitals :=
  ⟨List.sorted_insertionSort distLE _,
   fun d => filter_insertionSort_sameDist d _,
   nearbyCandidates_map_sublist lat lng radius_km hospitals⟩

/-- Claim C7: nearby_hospitals is a total function, so no radius value
raises an error; both a negative radius and a query for which no
candidate lies within the radius yield the empty list. -/
theorem claim_C7 (hospitals : List Hospital) (lat lng radius_km : ℝ)
    (hcond : radius_km < 0 ∨ ∀ h ∈ hospitals, ∀ hlat hlng,
      h.location_lat = some hlat → h.location_lng = some hlng →
      radius_km < haversine lat lng hlat hlng) :
    nearby_hospitals hospitals lat lng radius_km = [] := by
  rw [List.eq_nil_iff_forall_not_mem]
  intro rec hrec
  rw [mem_nearby_hospitals_iff] at hrec
  obtain ⟨h, hmem, hlat, hlng, ha, hb, hle, _⟩ := hrec
  rcases hcond with hneg | hfar
  · exact absurd hle (not_le.mpr (lt_of_lt_of_le hneg (haversine_nonneg lat lng hlat hlng)))
  · exact absurd hle (not_le.mpr (hfar h hmem hlat hlng ha hb))

/-- Witness for claim C7: a negative radius yields the empty list. -/
theorem claim_C7_witness : nearby_hospitals [testHospital] 10 10 (-1) = [] :=
  claim_C7 [testHospital] 10 10 (-1) (Or.inl (by norm_num))

/-- Claim C8: for every radius at least zero, a candidate whose stored
coordinates exactly equal the query point is included in the result with
distance_km exactly 0 (0.00 after rounding). -/
theorem claim_C8 (hospitals : List Hospital) (lat lng radius_km : ℝ)
    (h : Hospital) (hr : 0 ≤ radius_km) (hmem : h ∈ hospitals)
    (hlat : h.location_lat = some lat) (hlng : h.location_lng = some lng) :
    ∃ rec ∈ nearby_hospitals hospitals lat lng radius_km,
      rec.hospital = h ∧ rec.distance_km = 0 := by
  refine ⟨⟨h, round2 (haversine lat lng lat lng)⟩, ?_, rfl, ?_⟩
  · rw [mem_nearby_hospitals_iff]
    refine ⟨h, hmem, lat, lng, hlat, hlng, ?_, rfl⟩
    rw [haversine_self]
    exact hr
  · show round2 (haversine lat lng lat lng) = 0
    rw [haversine_self]
    exact round2_zero

/-- Witness for claim C8 at the concrete hospital at the query point with
radius zero. -/
theorem claim_C8_witness :
    ∃ rec ∈ nearby_hospitals [testHospital] 10 10 0,
      rec.hospital = testHospital ∧ rec.distance_km = 0 :=
  claim_C8 [testHospital] 10 10 0 testHospital le_rfl
    (List.mem_singleton.mpr rfl) rfl rfl

/-- Claim C9: every record of the nearby-hospitals result is a stored
input hospital, unchanged (the result type is all the Hospital fields
plus the one added distance_km field), and its distance_km is the
haversine distance of its stored coordinates from the query point
rounded to two decimal places; the stored records are not modified (the
operation is a pure function of the fetched list). -/
theorem claim_C9 (hospitals : List Hospital) (lat lng radius_km : ℝ)
    (rec : HospitalWithDistance)
    (hrec : rec ∈ nearby_hospitals hospitals lat lng radius_km) :
    rec.hospital ∈ hospitals ∧
    ∃ hlat hlng, rec.hospital.location_lat = some hlat ∧
      rec.hospital.location_lng = some hlng ∧
      rec.distance_km = round2 (haversine lat lng hlat hlng) := by
  rw [mem_nearby_hospitals_iff] at hrec
  obtain ⟨h, hmem, hlat, hlng, ha, hb, _, hr⟩ := hrec
  subst hr
  exact ⟨hmem, hlat, hlng, ha, hb, rfl⟩

/-- Witness for claim C9 at a concrete result record. -/
theorem claim_C9_witness :
    (⟨testHospital, 0⟩ : HospitalWithDistance).hospital ∈ [testHospital] ∧
    ∃ hlat hlng,
      (⟨testHospital, 0⟩ : HospitalWithDistance).hospital.location_lat = some hlat ∧
      (⟨testHospital, 0⟩ : HospitalWithDistance).hospital.location_lng = some hlng ∧
      (⟨testHospital, 0⟩ : HospitalWithDistance).distance_km =
        round2 (haversine 10 10 hlat hlng) := by
  refine claim_C9 [testHospital] 10 10 0 ⟨testHospital, 0⟩ ?_
  rw [mem_nearby_hospitals_iff]
  refine ⟨testHospital, List.mem_singleton.mpr rfl, 10, 10, rfl, rfl, ?_, ?_⟩
  · rw [haversine_self]
  · rw [haversine_self, round2_zero]

end HealthBackend
